import Mathlib

/-!
Verification of the financemanager server routes.

The data model mirrors the Prisma schema (`MonthlyData` owning
`IncomeSource` and `ExpenseCategory` rows, plus `User`).  Monetary
`Decimal` values are modelled as rationals.  The route handlers from
`src/server/src/routes/yearly.ts`, the monthly routes file and
`src/server/src/middleware/auth.ts` are embedded as pure functions over
an explicit store (a list of rows); JavaScript truthiness of optional
request-body fields and the stability of `Array.prototype.sort` are
modelled explicitly.
-/

namespace FinanceManager

/-- An income row of a month: `{name, expected, actual}` (Decimal amounts as ℚ). -/
structure IncomeSource where
  name : String
  expected : ℚ
  actual : ℚ
  deriving Repr, DecidableEq

/-- An expense row of a month. -/
structure ExpenseCategory where
  name : String
  budgeted : ℚ
  actual : ℚ
  isPaid : Bool
  showPaidStatus : Bool
  deriving Repr, DecidableEq

/-- A `MonthlyData` row together with its owned children. -/
structure MonthlyData where
  month : String
  incomeSources : List IncomeSource
  expenseCategories : List ExpenseCategory
  deriving Repr, DecidableEq

/-- Embeds `s.startsWith p` on strings, written over the character lists. -/
def strStartsWith (s p : String) : Bool :=
  s.data.take p.data.length == p.data

/-- Lexicographic comparison of character lists. -/
def charListLt : List Char → List Char → Bool
  | [], [] => false
  | [], _ :: _ => true
  | _ :: _, [] => false
  | a :: as, b :: bs => if a < b then true else if b < a then false else charListLt as bs

/-- Lexicographic `s < t` on strings (the store's ordering of the
zero-padded month keys), written over the character lists. -/
def strLt (s t : String) : Bool :=
  charListLt s.data t.data

/-- JavaScript `x || d` on an optional string field: `undefined`, `null`
and `""` are falsy. -/
def jsOrStr (x : Option String) (d : String) : String :=
  match x with
  | none => d
  | some s => if s = "" then d else s

/-- JavaScript `x || d` on an optional numeric field: `undefined` and `0`
are falsy. -/
def jsOrNum (x : Option ℚ) (d : ℚ) : ℚ :=
  match x with
  | none => d
  | some q => if q = 0 then d else q

/-- JavaScript truthiness of an optional string (`undefined`/`""` falsy). -/
def jsTruthyStr (x : Option String) : Bool :=
  match x with
  | none => false
  | some s => s ≠ ""

section StableSort

variable {α : Type} (k : α → ℚ)

/-- Insert `x` into `l` keeping the descending-by-`k` order.  `x` passes
an element `y` only when `k x < k y`, so among equal keys `x` lands in
front: with `sortDescBy` below this models the stable descending sort
`arr.sort((a, b) => k(b) - k(a))` of ES2019 JavaScript. -/
def insertDescBy (x : α) : List α → List α
  | [] => [x]
  | y :: ys => if k x < k y then y :: insertDescBy x ys else x :: y :: ys

/-- Stable descending sort by key `k` (JavaScript
`[...arr].sort((a, b) => k(b) - k(a))`). -/
def sortDescBy : List α → List α
  | [] => []
  | x :: xs => insertDescBy k x (sortDescBy xs)

/-- JavaScript `arr[arr.length - 1] || null`: the last element of a list,
if any. -/
def lastOpt : List α → Option α
  | [] => none
  | [x] => some x
  | _ :: y :: ys => lastOpt (y :: ys)

end StableSort

/-! ## Yearly aggregator (`src/server/src/routes/yearly.ts`) -/

/-- One entry of the `monthlyBreakdown` array. -/
structure MonthlyBreakdownItem where
  month : String
  expectedIncome : ℚ
  actualIncome : ℚ
  effectiveIncome : ℚ
  budgeted : ℚ
  actualExpenses : ℚ
  savings : ℚ
  deriving Repr, DecidableEq

/-- Embeds `month.incomeSources.reduce((sum, inc) => sum + inc.expected, 0)`. -/
def monthExpectedIncome (m : MonthlyData) : ℚ :=
  (m.incomeSources.map (·.expected)).sum

/-- Embeds `month.incomeSources.reduce((sum, inc) => sum + inc.actual, 0)`. -/
def monthActualIncome (m : MonthlyData) : ℚ :=
  (m.incomeSources.map (·.actual)).sum

/-- Embeds `month.expenseCategories.reduce((sum, exp) => sum + exp.budgeted, 0)`. -/
def monthBudgeted (m : MonthlyData) : ℚ :=
  (m.expenseCategories.map (·.budgeted)).sum

/-- Embeds `month.expenseCategories.reduce((sum, exp) => sum + exp.actual, 0)`. -/
def monthActualExpenses (m : MonthlyData) : ℚ :=
  (m.expenseCategories.map (·.actual)).sum

/-- The breakdown entry the yearly loop pushes for one month. -/
def monthBreakdown (m : MonthlyData) : MonthlyBreakdownItem :=
  let effectiveIncome := max (monthExpectedIncome m) (monthActualIncome m)
  { month := m.month
    expectedIncome := monthExpectedIncome m
    actualIncome := monthActualIncome m
    effectiveIncome := effectiveIncome
    budgeted := monthBudgeted m
    actualExpenses := monthActualExpenses m
    savings := effectiveIncome - monthActualExpenses m }

/-- One running entry of the `categoryTotals` record. -/
structure CatTotal where
  name : String
  budgeted : ℚ
  actual : ℚ
  deriving Repr, DecidableEq

/-- Folding one expense row into `categoryTotals`; the record keeps keys
in first-insertion order, so it is an association list. -/
def upsertCat (acc : List CatTotal) (e : ExpenseCategory) : List CatTotal :=
  if acc.any (fun c => c.name = e.name) then
    acc.map (fun c =>
      if c.name = e.name then
        { c with budgeted := c.budgeted + e.budgeted, actual := c.actual + e.actual }
      else c)
  else
    acc ++ [{ name := e.name, budgeted := e.budgeted, actual := e.actual }]

/-- The `categoryTotals` record after the per-month loop. -/
def categoryTotals (months : List MonthlyData) : List CatTotal :=
  months.foldl (fun acc m => m.expenseCategories.foldl upsertCat acc) []

/-- One entry of the sorted `categoryBreakdown` array. -/
structure CategoryBreakdownItem where
  name : String
  budgeted : ℚ
  actual : ℚ
  variance : ℚ
  deriving Repr, DecidableEq

/-- Embeds `Object.entries(categoryTotals).map(...).sort((a, b) => b.actual - a.actual)`. -/
def categoryBreakdown (months : List MonthlyData) : List CategoryBreakdownItem :=
  sortDescBy (·.actual)
    ((categoryTotals months).map (fun c =>
      { name := c.name, budgeted := c.budgeted, actual := c.actual,
        variance := c.budgeted - c.actual }))

/-- The `totals` object of the yearly response. -/
structure YearlyTotals where
  expectedIncome : ℚ
  actualIncome : ℚ
  effectiveIncome : ℚ
  budgeted : ℚ
  actualExpenses : ℚ
  savings : ℚ
  deriving Repr, DecidableEq

/-- The `averages` object of the yearly response. -/
structure YearlyAverages where
  monthlyIncome : ℚ
  monthlyExpenses : ℚ
  monthlySavings : ℚ
  deriving Repr, DecidableEq

/-- The JSON body of a successful `GET /api/yearly/:year`. -/
structure YearlySummary where
  year : String
  monthCount : Nat
  totals : YearlyTotals
  averages : YearlyAverages
  savingsRate : ℚ
  monthlyBreakdown : List MonthlyBreakdownItem
  categoryBreakdown : List CategoryBreakdownItem
  bestMonth : Option MonthlyBreakdownItem
  worstMonth : Option MonthlyBreakdownItem
  highestSpendingMonth : Option MonthlyBreakdownItem
  topSpendingCategory : Option CategoryBreakdownItem
  deriving Repr, DecidableEq

/-- The aggregation body of the yearly handler, applied to the months
loaded for the year (in query order). -/
def yearlySummaryCore (year : String) (months : List MonthlyData) : YearlySummary :=
  let monthlyBreakdown := months.map monthBreakdown
  let totalExpectedIncome := (months.map monthExpectedIncome).sum
  let totalActualIncome := (months.map monthActualIncome).sum
  let totalBudgeted := (months.map monthBudgeted).sum
  let totalActualExpenses := (months.map monthActualExpenses).sum
  let catBreakdown := categoryBreakdown months
  -- `const monthCount = months.length || 1`
  let monthCount : ℚ := if months.length = 0 then 1 else (months.length : ℚ)
  let totalEffectiveIncome := max totalExpectedIncome totalActualIncome
  let totalSavings := totalEffectiveIncome - totalActualExpenses
  let savingsRate :=
    if totalEffectiveIncome > 0 then totalSavings / totalEffectiveIncome * 100 else 0
  let sortedBySavings := sortDescBy (·.savings) monthlyBreakdown
  let sortedByExpenses := sortDescBy (·.actualExpenses) monthlyBreakdown
  { year := year
    monthCount := months.length
    totals :=
      { expectedIncome := totalExpectedIncome
        actualIncome := totalActualIncome
        effectiveIncome := totalEffectiveIncome
        budgeted := totalBudgeted
        actualExpenses := totalActualExpenses
        savings := totalSavings }
    averages :=
      { monthlyIncome := totalEffectiveIncome / monthCount
        monthlyExpenses := totalActualExpenses / monthCount
        monthlySavings := totalSavings / monthCount }
    savingsRate := savingsRate
    monthlyBreakdown := monthlyBreakdown
    categoryBreakdown := catBreakdown
    bestMonth := sortedBySavings.head?
    worstMonth := lastOpt sortedBySavings
    highestSpendingMonth := sortedByExpenses.head?
    topSpendingCategory := catBreakdown.head? }

/-- The format check `^\d{4}$` on the `:year` parameter. -/
def validYearKey (s : String) : Bool :=
  match s.toList with
  | [a, b, c, d] => a.isDigit && b.isDigit && c.isDigit && d.isDigit
  | _ => false

/-- Ascending insertion by month key, stable (Prisma `orderBy: {month: "asc"}`). -/
def insertAscMonth (x : MonthlyData) : List MonthlyData → List MonthlyData
  | [] => [x]
  | y :: ys => if strLt y.month x.month then y :: insertAscMonth x ys else x :: y :: ys

/-- Sort rows ascending by month key. -/
def sortAscMonth : List MonthlyData → List MonthlyData
  | [] => []
  | x :: xs => insertAscMonth x (sortAscMonth xs)

/-- The Prisma query of the yearly handler: all rows whose month key
starts with the year, ordered ascending by month. -/
def monthsForYear (year : String) (db : List MonthlyData) : List MonthlyData :=
  sortAscMonth (db.filter (fun m => strStartsWith m.month year))

/-- An error response: status code and `error` message. -/
structure ErrResp where
  status : Nat
  error : String
  deriving Repr, DecidableEq

/-- The handler of `GET /api/yearly/:year`: format validation, query, aggregation. -/
def yearlyGet (year : String) (db : List MonthlyData) : Except ErrResp YearlySummary :=
  if validYearKey year then
    .ok (yearlySummaryCore year (monthsForYear year db))
  else
    .error { status := 400, error := "Invalid year format. Use YYYY" }

/-! ## Month resolver and expense creation (monthly routes file) -/

/-- The format check `^\d{4}-\d{2}$` on the `:month` parameter. -/
def validMonthKey (s : String) : Bool :=
  match s.toList with
  | [a, b, c, d, e, f, g] =>
    a.isDigit && b.isDigit && c.isDigit && d.isDigit && e = '-' && f.isDigit && g.isDigit
  | _ => false

/-- Embeds `prisma.monthlyData.findUnique({where: {month}})` on a store of rows. -/
def findUniqueMonth (db : List MonthlyData) (key : String) : Option MonthlyData :=
  db.find? (fun m => m.month = key)

/-- Embeds `prisma.monthlyData.findFirst({where: {month: {lt: month}}, orderBy: {month: "desc"}})`:
the row with the greatest month key strictly below `key`. -/
def findPrevMonth (db : List MonthlyData) (key : String) : Option MonthlyData :=
  (db.filter (fun m => strLt m.month key)).foldl
    (fun acc m =>
      match acc with
      | none => some m
      | some p => if strLt p.month m.month then some m else some p)
    none

/-- The `DEFAULT_CATEGORIES` constant (name, budgeted, showPaidStatus). -/
def DEFAULT_CATEGORIES : List (String × ℚ × Bool) :=
  [("Rent", 0, true),
   ("Groceries", 0, false),
   ("Car Insurance", 0, true),
   ("Clothes", 0, false),
   ("Other", 0, false)]

/-- The clone mapping applied to a previous month's expense row: keep
name, budgeted and showPaidStatus; reset actual to 0 and isPaid to false. -/
def cloneCat (c : ExpenseCategory) : ExpenseCategory :=
  { name := c.name, budgeted := c.budgeted, actual := 0,
    isPaid := false, showPaidStatus := c.showPaidStatus }

/-- A default row materialised at month creation. -/
def defaultCat (c : String × ℚ × Bool) : ExpenseCategory :=
  { name := c.1, budgeted := c.2.1, actual := 0,
    isPaid := false, showPaidStatus := c.2.2 }

/-- Response of a monthly route: a month body or an error. -/
inductive MonthResponse where
  | ok (m : MonthlyData)
  | err (status : Nat) (msg : String)
  deriving Repr, DecidableEq

/-- The handler of `GET /api/monthly/:month`: validate, return the existing row, or
create one by cloning the nearest earlier month's expense categories
(defaults when there is none or it has no categories).  Returns the
response together with the store after the request. -/
def getOrCreateMonth (key : String) (db : List MonthlyData) :
    MonthResponse × List MonthlyData :=
  if ¬ validMonthKey key then
    (.err 400 "Invalid month format. Use YYYY-MM", db)
  else
    match findUniqueMonth db key with
    | some m => (.ok m, db)
    | none =>
      -- `previousMonth?.expenseCategories.length ? clone : DEFAULT_CATEGORIES`
      let categoriesToClone :=
        match findPrevMonth db key with
        | some prev =>
          if prev.expenseCategories.length ≠ 0 then
            prev.expenseCategories.map cloneCat
          else
            DEFAULT_CATEGORIES.map defaultCat
        | none => DEFAULT_CATEGORIES.map defaultCat
      let newMonth : MonthlyData :=
        { month := key, incomeSources := [], expenseCategories := categoriesToClone }
      (.ok newMonth, db ++ [newMonth])

/-- Request body of `POST /api/monthly/:month/expense`. -/
structure ExpenseBody where
  name : Option String
  budgeted : Option ℚ
  deriving Repr, DecidableEq

/-- Response of the expense-creation route. -/
inductive ExpenseResponse where
  | ok (e : ExpenseCategory)
  | err (status : Nat) (msg : String)
  deriving Repr, DecidableEq

/-- Attach an expense row to the month with the given key. -/
def attachExpense (db : List MonthlyData) (key : String) (e : ExpenseCategory) :
    List MonthlyData :=
  db.map (fun m =>
    if m.month = key then { m with expenseCategories := m.expenseCategories ++ [e] }
    else m)

/-- The handler of `POST /api/monthly/:month/expense`: 404 when the month is absent,
otherwise create a row with `name || "New Category"`, `budgeted || 0`,
`actual = 0`, `isPaid = false`, `showPaidStatus = false`. -/
def addExpense (key : String) (body : ExpenseBody) (db : List MonthlyData) :
    ExpenseResponse × List MonthlyData :=
  match findUniqueMonth db key with
  | none => (.err 404 "Month not found", db)
  | some _ =>
    let e : ExpenseCategory :=
      { name := jsOrStr body.name "New Category"
        budgeted := jsOrNum body.budgeted 0
        actual := 0
        isPaid := false
        showPaidStatus := false }
    (.ok e, attachExpense db key e)

/-! ## Authentication (`src/server/src/middleware/auth.ts` routes) -/

/-- A `User` row: the `password` field holds the bcrypt hash. -/
structure User where
  id : Nat
  username : String
  password : String
  deriving Repr, DecidableEq

/-- Response of an auth route: success with a username, or an error. -/
inductive AuthResult where
  | ok (username : String)
  | err (status : Nat) (error : String)
  deriving Repr, DecidableEq

/-- The status code of an auth response, if it is an error. -/
def AuthResult.statusOf : AuthResult → Option Nat
  | .ok _ => none
  | .err s _ => some s

/-- Embeds `prisma.user.findUnique({where: {username}})`. -/
def findUserByName (users : List User) (username : String) : Option User :=
  users.find? (fun u => u.username = username)

/-- Embeds `prisma.user.findUnique({where: {id}})`. -/
def findUserById (users : List User) (id : Nat) : Option User :=
  users.find? (fun u => u.id = id)

/-- The handler of `POST /api/auth/login`.  `compare` models `bcrypt.compare` (an opaque
one-way check); absent body fields are modelled as `""`, which is falsy. -/
def login (compare : String → String → Bool) (username password : String)
    (users : List User) : AuthResult :=
  if username = "" ∨ password = "" then
    .err 400 "Username and password required"
  else
    match findUserByName users username with
    | none => .err 401 "Invalid credentials"
    | some user =>
      if compare password user.password then
        .ok user.username
      else
        .err 401 "Invalid credentials"

/-- Request body of `POST /api/auth/change-credentials`. -/
structure ChangeBody where
  currentPassword : Option String
  newUsername : Option String
  newPassword : Option String
  deriving Repr, DecidableEq

/-- Apply the accumulated `updateData` to the user row with the given id. -/
def applyUpdate (users : List User) (id : Nat)
    (newName : Option String) (newHash : Option String) : List User :=
  users.map (fun u =>
    if u.id = id then
      { u with
        username := newName.getD u.username
        password := newHash.getD u.password }
    else u)

/-- The handler of `POST /api/auth/change-credentials`.  `compare` and `hash` model the
bcrypt primitives; `sessionUserId` is the authenticated session's user id.
Returns the response and the user store after the request. -/
def changeCredentials (compare : String → String → Bool) (hash : String → String)
    (sessionUserId : Nat) (body : ChangeBody) (users : List User) :
    AuthResult × List User :=
  if ¬ jsTruthyStr body.currentPassword then
    (.err 400 "Current password required", users)
  else if ¬ jsTruthyStr body.newUsername ∧ ¬ jsTruthyStr body.newPassword then
    (.err 400 "New username or password required", users)
  else
    match findUserById users sessionUserId with
    | none => (.err 401 "User not found", users)
    | some user =>
      if ¬ compare ((body.currentPassword).getD "") user.password then
        (.err 401 "Current password is incorrect", users)
      else
        -- `if (newUsername) { check uniqueness }`
        let nameCheck : Option AuthResult :=
          if jsTruthyStr body.newUsername then
            match findUserByName users ((body.newUsername).getD "") with
            | some existing =>
              if existing.id ≠ user.id then
                some (.err 400 "Username already taken")
              else none
            | none => none
          else none
        match nameCheck with
        | some e => (e, users)
        | none =>
          -- `if (newPassword) { length check, hash }`
          if jsTruthyStr body.newPassword ∧ ((body.newPassword).getD "").length < 6 then
            (.err 400 "Password must be at least 6 characters", users)
          else
            let newName :=
              if jsTruthyStr body.newUsername then some ((body.newUsername).getD "")
              else none
            let newHash :=
              if jsTruthyStr body.newPassword then some (hash ((body.newPassword).getD ""))
              else none
            let users' := applyUpdate users user.id newName newHash
            ((.ok ((newName).getD user.username)), users')

/-! ## Selection rules, stated from the spec's words

The spec describes the highlight selection as "by savings / by
actualExpenses, ties broken by natural array order".  The two functions
below state that rule directly: `firstMaxBy` picks the first element
attaining the maximum key, `lastMinBy` the last element attaining the
minimum key.  The theorems relate them to the sort-based selection the
code performs. -/

/-- The first element of `l` attaining the maximum of `k`: the earlier
element wins unless a later one is strictly greater. -/
def firstMaxBy {α : Type} (k : α → ℚ) : List α → Option α
  | [] => none
  | x :: xs =>
    match firstMaxBy k xs with
    | none => some x
    | some m => if k x < k m then some m else some x

/-- The last element of `l` attaining the minimum of `k`: the earlier
element wins only when strictly smaller than the minimum of the rest. -/
def lastMinBy {α : Type} (k : α → ℚ) : List α → Option α
  | [] => none
  | x :: xs =>
    match lastMinBy k xs with
    | none => some x
    | some m => if k x < k m then some x else some m

section SortLemmas

variable {α : Type} (k : α → ℚ)

theorem insertDescBy_ne_nil (x : α) (l : List α) : insertDescBy k x l ≠ [] := by
  cases l with
  | nil => simp [insertDescBy]
  | cons y ys =>
    by_cases h : k x < k y <;> simp [insertDescBy, h]

theorem head_insertDescBy (x : α) (l : List α) :
    (insertDescBy k x l).head? =
      some (match l with
            | [] => x
            | y :: _ => if k x < k y then y else x) := by
  cases l with
  | nil => rfl
  | cons y ys =>
    by_cases h : k x < k y <;> simp [insertDescBy, h]

theorem head_sortDescBy (l : List α) :
    (sortDescBy k l).head? = firstMaxBy k l := by
  induction l with
  | nil => rfl
  | cons x xs ih =>
    simp only [sortDescBy, firstMaxBy]
    rw [head_insertDescBy, ← ih]
    cases hs : sortDescBy k xs with
    | nil => rfl
    | cons y t => by_cases hxy : k x < k y <;> simp [hxy]

theorem mem_insertDescBy (x a : α) (l : List α) :
    a ∈ insertDescBy k x l ↔ a = x ∨ a ∈ l := by
  induction l with
  | nil => simp [insertDescBy]
  | cons y ys ih =>
    by_cases h : k x < k y
    · simp only [insertDescBy, if_pos h, List.mem_cons, ih]
      tauto
    · simp only [insertDescBy, if_neg h, List.mem_cons]

theorem pairwise_insertDescBy (x : α) (l : List α)
    (hl : l.Pairwise (fun a b => k b ≤ k a)) :
    (insertDescBy k x l).Pairwise (fun a b => k b ≤ k a) := by
  induction l with
  | nil => simp [insertDescBy]
  | cons y ys ih =>
    rcases List.pairwise_cons.mp hl with ⟨hy, hys⟩
    by_cases h : k x < k y
    · simp only [insertDescBy, if_pos h]
      refine List.pairwise_cons.mpr ⟨?_, ih hys⟩
      intro b hb
      rcases (mem_insertDescBy k x b ys).mp hb with rfl | hb
      · exact le_of_lt h
      · exact hy b hb
    · simp only [insertDescBy, if_neg h]
      refine List.pairwise_cons.mpr ⟨?_, hl⟩
      intro b hb
      rcases List.mem_cons.mp hb with rfl | hb
      · exact not_lt.mp h
      · exact le_trans (hy b hb) (not_lt.mp h)

theorem pairwise_sortDescBy (l : List α) :
    (sortDescBy k l).Pairwise (fun a b => k b ≤ k a) := by
  induction l with
  | nil => exact List.Pairwise.nil
  | cons x xs ih => exact pairwise_insertDescBy k x _ ih

theorem lastOpt_eq_none_iff : ∀ l : List α, lastOpt l = none ↔ l = []
  | [] => by simp [lastOpt]
  | [x] => by simp [lastOpt]
  | x :: y :: ys => by
    simp only [lastOpt]
    rw [lastOpt_eq_none_iff (y :: ys)]
    simp

theorem lastOpt_mem : ∀ (l : List α) (a : α), lastOpt l = some a → a ∈ l
  | [], a, h => by simp [lastOpt] at h
  | [x], a, h => by
    simp only [lastOpt, Option.some.injEq] at h
    simp [h]
  | x :: y :: ys, a, h => by
    simp only [lastOpt] at h
    exact List.mem_cons_of_mem x (lastOpt_mem (y :: ys) a h)

theorem lastOpt_cons_of_ne_nil (y : α) (l : List α) (h : l ≠ []) :
    lastOpt (y :: l) = lastOpt l := by
  cases l with
  | nil => exact absurd rfl h
  | cons z zs => rfl

theorem lastOpt_insertDescBy (x : α) (l : List α)
    (hl : l.Pairwise (fun a b => k b ≤ k a)) :
    lastOpt (insertDescBy k x l) =
      some (match lastOpt l with
            | none => x
            | some z => if k x < k z then x else z) := by
  induction l with
  | nil => rfl
  | cons y ys ih =>
    rcases List.pairwise_cons.mp hl with ⟨hy, hys⟩
    by_cases h : k x < k y
    · simp only [insertDescBy, if_pos h]
      rw [lastOpt_cons_of_ne_nil y _ (insertDescBy_ne_nil k x ys), ih hys]
      cases ys with
      | nil => simp [lastOpt, h]
      | cons w ws => rw [lastOpt_cons_of_ne_nil y (w :: ws) (by simp)]
    · simp only [insertDescBy, if_neg h]
      rw [lastOpt_cons_of_ne_nil x (y :: ys) (by simp)]
      cases hz : lastOpt (y :: ys) with
      | none =>
        exact absurd ((lastOpt_eq_none_iff (y :: ys)).mp hz) (by simp)
      | some z =>
        have hzk : k z ≤ k x := by
          rcases List.mem_cons.mp (lastOpt_mem (y :: ys) z hz) with rfl | hzys
          · exact not_lt.mp h
          · exact le_trans (hy z hzys) (not_lt.mp h)
        show some z = some (if k x < k z then x else z)
        rw [if_neg (not_lt.mpr hzk)]

theorem lastOpt_sortDescBy (l : List α) :
    lastOpt (sortDescBy k l) = lastMinBy k l := by
  induction l with
  | nil => rfl
  | cons x xs ih =>
    simp only [sortDescBy, lastMinBy]
    rw [lastOpt_insertDescBy k x _ (pairwise_sortDescBy k xs), ← ih]
    cases hs : lastOpt (sortDescBy k xs) with
    | none => rfl
    | some z => by_cases hxz : k x < k z <;> simp [hxz]

end SortLemmas

/-! ## Claim theorems -/

/-- Claim C1: for every set of months of a year, the yearly summary's
total `effectiveIncome` is `max(Σ expectedIncome, Σ actualIncome)` — the
max of the sums — and this in general differs from the sum of each
month's own `max(expected, actual)`. -/
theorem yearly_effectiveIncome_is_max_of_sums :
    (∀ (year : String) (months : List MonthlyData),
      (yearlySummaryCore year months).totals.effectiveIncome =
        max ((months.map monthExpectedIncome).sum)
            ((months.map monthActualIncome).sum)) ∧
    (∃ (year : String) (months : List MonthlyData),
      (yearlySummaryCore year months).totals.effectiveIncome ≠
        ((months.map fun m =>
            max (monthExpectedIncome m) (monthActualIncome m)).sum)) := by
  constructor
  · intro year months
    rfl
  · refine ⟨"2025",
      [{ month := "2025-01", incomeSources := [⟨"a", 100, 0⟩], expenseCategories := [] },
       { month := "2025-02", incomeSources := [⟨"b", 0, 100⟩], expenseCategories := [] }],
      ?_⟩
    norm_num [yearlySummaryCore, monthExpectedIncome, monthActualIncome, max_def]

/-- Claim C3 (amended): in the yearly summary, the best month is the
first month attaining the maximal savings and the highest-spending month
the first attaining the maximal actualExpenses, but the worst month is
the LAST month attaining the minimal savings (the code takes the last
element of a stable descending sort); the top spending category is the
first entry of the sorted category breakdown. -/
theorem yearly_highlights_selection (year : String) (months : List MonthlyData) :
    (yearlySummaryCore year months).bestMonth =
      firstMaxBy (·.savings) (yearlySummaryCore year months).monthlyBreakdown ∧
    (yearlySummaryCore year months).worstMonth =
      lastMinBy (·.savings) (yearlySummaryCore year months).monthlyBreakdown ∧
    (yearlySummaryCore year months).highestSpendingMonth =
      firstMaxBy (·.actualExpenses) (yearlySummaryCore year months).monthlyBreakdown ∧
    (yearlySummaryCore year months).topSpendingCategory =
      (yearlySummaryCore year months).categoryBreakdown.head? :=
  ⟨head_sortDescBy _ _, lastOpt_sortDescBy _ _, head_sortDescBy _ _, rfl⟩

/-- Claim C3, counterexample to the stated tie-break: with two months of
equal (minimal) savings, the worst month is the SECOND month, not the
first occurrence. -/
theorem yearly_worstMonth_tie_last_occurrence :
    (yearlySummaryCore "2025"
        [{ month := "2025-01", incomeSources := [], expenseCategories := [] },
         { month := "2025-02", incomeSources := [], expenseCategories := [] }]).worstMonth =
      some (monthBreakdown
        { month := "2025-02", incomeSources := [], expenseCategories := [] }) ∧
    (monthBreakdown
        { month := "2025-01", incomeSources := [], expenseCategories := [] }).savings =
      (monthBreakdown
        { month := "2025-02", incomeSources := [], expenseCategories := [] }).savings ∧
    monthBreakdown { month := "2025-02", incomeSources := [], expenseCategories := [] } ≠
      monthBreakdown { month := "2025-01", incomeSources := [], expenseCategories := [] } := by
  refine ⟨?_, ?_, ?_⟩
  · norm_num [yearlySummaryCore, monthBreakdown, monthExpectedIncome, monthActualIncome,
      monthBudgeted, monthActualExpenses, sortDescBy, insertDescBy, lastOpt, max_def]
  · norm_num [monthBreakdown, monthExpectedIncome, monthActualIncome,
      monthBudgeted, monthActualExpenses, max_def]
  · norm_num [monthBreakdown, monthExpectedIncome, monthActualIncome,
      monthBudgeted, monthActualExpenses, max_def]
    decide

/-- The savings-rate branch of the yearly handler, as written in the code. -/
theorem savingsRate_def (year : String) (months : List MonthlyData) :
    (yearlySummaryCore year months).savingsRate =
      if (yearlySummaryCore year months).totals.effectiveIncome > 0 then
        (yearlySummaryCore year months).totals.savings /
          (yearlySummaryCore year months).totals.effectiveIncome * 100
      else 0 :=
  rfl

/-- Claim C4: `totalSavings = totalEffectiveIncome − totalActualExpenses`;
when the total effective income is positive the savings rate is
`100 × totalSavings / totalEffectiveIncome`, and it is exactly 0 whenever
the total effective income is 0, regardless of expenses. -/
theorem yearly_savingsRate (year : String) (months : List MonthlyData) :
    (yearlySummaryCore year months).totals.savings =
      (yearlySummaryCore year months).totals.effectiveIncome -
        (yearlySummaryCore year months).totals.actualExpenses ∧
    ((yearlySummaryCore year months).totals.effectiveIncome > 0 →
      (yearlySummaryCore year months).savingsRate =
        100 * ((yearlySummaryCore year months).totals.savings /
          (yearlySummaryCore year months).totals.effectiveIncome)) ∧
    ((yearlySummaryCore year months).totals.effectiveIncome = 0 →
      (yearlySummaryCore year months).savingsRate = 0) := by
  refine ⟨rfl, ?_, ?_⟩
  · intro h
    rw [savingsRate_def, if_pos h]
    ring
  · intro h
    rw [savingsRate_def, if_neg (by rw [h]; exact lt_irrefl 0)]

/-- Witness for C4 at a concrete month list with positive effective income. -/
theorem yearly_savingsRate_witness :
    (yearlySummaryCore "2025"
        [{ month := "2025-01",
           incomeSources := [⟨"job", 200, 100⟩],
           expenseCategories := [⟨"Rent", 0, 50, false, true⟩] }]).totals.effectiveIncome
      > 0 ∧
    (yearlySummaryCore "2025"
        [{ month := "2025-01",
           incomeSources := [⟨"job", 200, 100⟩],
           expenseCategories := [⟨"Rent", 0, 50, false, true⟩] }]).savingsRate = 75 := by
  have hpos : (yearlySummaryCore "2025"
      [{ month := "2025-01",
         incomeSources := [⟨"job", 200, 100⟩],
         expenseCategories := [⟨"Rent", 0, 50, false, true⟩] }]).totals.effectiveIncome
      > 0 := by
    norm_num [yearlySummaryCore, monthExpectedIncome, monthActualIncome, max_def]
  refine ⟨hpos, ?_⟩
  rw [(yearly_savingsRate "2025"
    [{ month := "2025-01",
       incomeSources := [⟨"job", 200, 100⟩],
       expenseCategories := [⟨"Rent", 0, 50, false, true⟩] }]).2.1 hpos]
  norm_num [yearlySummaryCore, monthExpectedIncome, monthActualIncome,
    monthActualExpenses, max_def]

/-- Claim C9: for a well-formed year with no matching months, the yearly
summary has `monthCount 0`, all-zero totals and averages (division is by
the clamped count 1), zero savings rate, empty breakdowns and all four
highlights `null`. -/
theorem yearly_empty_year (year : String) (db : List MonthlyData)
    (hy : validYearKey year = true)
    (hnone : ∀ m ∈ db, strStartsWith m.month year = false) :
    yearlyGet year db =
      .ok { year := year
            monthCount := 0
            totals := ⟨0, 0, 0, 0, 0, 0⟩
            averages := ⟨0, 0, 0⟩
            savingsRate := 0
            monthlyBreakdown := []
            categoryBreakdown := []
            bestMonth := none
            worstMonth := none
            highestSpendingMonth := none
            topSpendingCategory := none } := by
  have hfil : db.filter (fun m => strStartsWith m.month year) = [] := by
    rw [List.filter_eq_nil_iff]
    intro a ha
    simp [hnone a ha]
  unfold yearlyGet
  rw [if_pos hy]
  unfold monthsForYear
  rw [hfil]
  norm_num [yearlySummaryCore, sortAscMonth, categoryBreakdown, categoryTotals,
    sortDescBy, lastOpt, max_def]

/-- Witness for C9: year 2025 against a store holding only a 2024 month. -/
theorem yearly_empty_year_witness :
    yearlyGet "2025" [{ month := "2024-01", incomeSources := [], expenseCategories := [] }] =
      .ok { year := "2025"
            monthCount := 0
            totals := ⟨0, 0, 0, 0, 0, 0⟩
            averages := ⟨0, 0, 0⟩
            savingsRate := 0
            monthlyBreakdown := []
            categoryBreakdown := []
            bestMonth := none
            worstMonth := none
            highestSpendingMonth := none
            topSpendingCategory := none } :=
  yearly_empty_year "2025" _ (by decide) (by decide)

/-- Claim C6: for every month key failing the `YYYY-MM` format check,
the get-or-create operation responds 400 and leaves the store unchanged. -/
theorem getOrCreateMonth_invalid_key (key : String) (db : List MonthlyData)
    (hkey : validMonthKey key = false) :
    getOrCreateMonth key db = (.err 400 "Invalid month format. Use YYYY-MM", db) := by
  unfold getOrCreateMonth
  rw [if_pos (by simp [hkey])]

/-- Witness for C6 at a malformed key. -/
theorem getOrCreateMonth_invalid_key_witness :
    getOrCreateMonth "2025-1" [] = (.err 400 "Invalid month format. Use YYYY-MM", []) :=
  getOrCreateMonth_invalid_key "2025-1" [] (by decide)

/-- Claim C2: first read of an absent valid month key whose nearest
earlier month has at least one expense category creates a month whose
categories copy the earlier month's {name, budgeted, showPaidStatus}
with actual 0 and isPaid false, and which has zero income sources. -/
theorem getOrCreateMonth_clones_previous (key : String) (db : List MonthlyData)
    (p : MonthlyData)
    (hkey : validMonthKey key = true)
    (habsent : findUniqueMonth db key = none)
    (hprev : findPrevMonth db key = some p)
    (hcats : p.expenseCategories ≠ []) :
    ∃ newM : MonthlyData,
      getOrCreateMonth key db = (.ok newM, db ++ [newM]) ∧
      newM.month = key ∧
      newM.incomeSources = [] ∧
      newM.expenseCategories.map (·.name) = p.expenseCategories.map (·.name) ∧
      newM.expenseCategories.map (·.budgeted) = p.expenseCategories.map (·.budgeted) ∧
      newM.expenseCategories.map (·.showPaidStatus) =
        p.expenseCategories.map (·.showPaidStatus) ∧
      ∀ c ∈ newM.expenseCategories, c.actual = 0 ∧ c.isPaid = false := by
  refine ⟨{ month := key, incomeSources := [],
            expenseCategories := p.expenseCategories.map cloneCat },
    ?_, rfl, rfl, ?_, ?_, ?_, ?_⟩
  · have hlen : p.expenseCategories.length ≠ 0 := by
      simpa [List.length_eq_zero] using hcats
    unfold getOrCreateMonth
    rw [if_neg (by simp [hkey]), habsent, hprev]
    simp [hlen]
  · rw [List.map_map]; rfl
  · rw [List.map_map]; rfl
  · rw [List.map_map]; rfl
  · intro c hc
    rcases List.mem_map.mp hc with ⟨d, _, rfl⟩
    exact ⟨rfl, rfl⟩

/-- Witness for C2: month 2025-02 first read with 2025-01 present. -/
theorem getOrCreateMonth_clones_previous_witness :
    ∃ newM : MonthlyData,
      getOrCreateMonth "2025-02"
          [{ month := "2025-01",
             incomeSources := [⟨"job", 1, 2⟩],
             expenseCategories :=
               [⟨"Rent", 1200, 1200, true, true⟩, ⟨"Groceries", 400, 380, false, false⟩] }] =
        (.ok newM,
          [{ month := "2025-01",
             incomeSources := [⟨"job", 1, 2⟩],
             expenseCategories :=
               [⟨"Rent", 1200, 1200, true, true⟩, ⟨"Groceries", 400, 380, false, false⟩] }]
            ++ [newM]) ∧
      newM.month = "2025-02" ∧
      newM.incomeSources = [] ∧
      newM.expenseCategories.map (·.name) = ["Rent", "Groceries"] ∧
      newM.expenseCategories.map (·.budgeted) = [1200, 400] ∧
      newM.expenseCategories.map (·.showPaidStatus) = [true, false] ∧
      ∀ c ∈ newM.expenseCategories, c.actual = 0 ∧ c.isPaid = false := by
  obtain ⟨newM, h1, h2, h3, h4, h5, h6, h7⟩ :=
    getOrCreateMonth_clones_previous "2025-02"
      [{ month := "2025-01",
         incomeSources := [⟨"job", 1, 2⟩],
         expenseCategories :=
           [⟨"Rent", 1200, 1200, true, true⟩, ⟨"Groceries", 400, 380, false, false⟩] }]
      { month := "2025-01",
        incomeSources := [⟨"job", 1, 2⟩],
        expenseCategories :=
          [⟨"Rent", 1200, 1200, true, true⟩, ⟨"Groceries", 400, 380, false, false⟩] }
      (by decide) (by decide) (by decide) (by decide)
  exact ⟨newM, h1, h2, h3, by rw [h4]; rfl, by rw [h5]; rfl, by rw [h6]; rfl, h7⟩

/-- Claim C5: first read of an absent valid month key with no earlier
month (or whose nearest earlier month has no expense categories) creates
the five default categories, `showPaidStatus` true exactly for Rent and
Car Insurance, everything else zeroed. -/
theorem getOrCreateMonth_defaults (key : String) (db : List MonthlyData)
    (hkey : validMonthKey key = true)
    (habsent : findUniqueMonth db key = none)
    (hprev : findPrevMonth db key = none ∨
      ∃ p, findPrevMonth db key = some p ∧ p.expenseCategories = []) :
    ∃ newM : MonthlyData,
      getOrCreateMonth key db = (.ok newM, db ++ [newM]) ∧
      newM.month = key ∧
      newM.incomeSources = [] ∧
      newM.expenseCategories =
        [⟨"Rent", 0, 0, false, true⟩,
         ⟨"Groceries", 0, 0, false, false⟩,
         ⟨"Car Insurance", 0, 0, false, true⟩,
         ⟨"Clothes", 0, 0, false, false⟩,
         ⟨"Other", 0, 0, false, false⟩] := by
  refine ⟨{ month := key, incomeSources := [],
            expenseCategories := DEFAULT_CATEGORIES.map defaultCat },
    ?_, rfl, rfl, rfl⟩
  unfold getOrCreateMonth
  rw [if_neg (by simp [hkey]), habsent]
  rcases hprev with h | ⟨p, hp, hpe⟩
  · rw [h]
  · rw [hp]
    simp [hpe]

/-- Witness for C5: the first-ever month against an empty store. -/
theorem getOrCreateMonth_defaults_witness :
    ∃ newM : MonthlyData,
      getOrCreateMonth "2025-01" [] = (.ok newM, [] ++ [newM]) ∧
      newM.month = "2025-01" ∧
      newM.incomeSources = [] ∧
      newM.expenseCategories =
        [⟨"Rent", 0, 0, false, true⟩,
         ⟨"Groceries", 0, 0, false, false⟩,
         ⟨"Car Insurance", 0, 0, false, true⟩,
         ⟨"Clothes", 0, 0, false, false⟩,
         ⟨"Other", 0, 0, false, false⟩] :=
  getOrCreateMonth_defaults "2025-01" [] (by decide) (by decide) (Or.inl (by decide))

/-- Claim C10: creating an expense on an existing month always yields a
row with actual 0, isPaid false and showPaidStatus false; only the name
(default "New Category") and budgeted amount (default 0) come from the
request body. -/
theorem addExpense_fixed_fields (key : String) (body : ExpenseBody)
    (db : List MonthlyData) (m : MonthlyData)
    (hm : findUniqueMonth db key = some m) :
    ∃ e : ExpenseCategory,
      addExpense key body db = (.ok e, attachExpense db key e) ∧
      e.actual = 0 ∧
      e.isPaid = false ∧
      e.showPaidStatus = false ∧
      e.name = jsOrStr body.name "New Category" ∧
      e.budgeted = jsOrNum body.budgeted 0 := by
  refine ⟨{ name := jsOrStr body.name "New Category",
            budgeted := jsOrNum body.budgeted 0,
            actual := 0, isPaid := false, showPaidStatus := false },
    ?_, rfl, rfl, rfl, rfl, rfl⟩
  unfold addExpense
  rw [hm]

/-- Witness for C10 with a body that supplies extraneous intent (a name
and a budget) against a one-month store. -/
theorem addExpense_fixed_fields_witness :
    ∃ e : ExpenseCategory,
      addExpense "2025-01" ⟨some "Utilities", some 120⟩
          [{ month := "2025-01", incomeSources := [], expenseCategories := [] }] =
        (.ok e,
          attachExpense
            [{ month := "2025-01", incomeSources := [], expenseCategories := [] }]
            "2025-01" e) ∧
      e.actual = 0 ∧
      e.isPaid = false ∧
      e.showPaidStatus = false ∧
      e.name = jsOrStr (some "Utilities") "New Category" ∧
      e.budgeted = jsOrNum (some 120) 0 :=
  addExpense_fixed_fields "2025-01" ⟨some "Utilities", some 120⟩
    [{ month := "2025-01", incomeSources := [], expenseCategories := [] }]
    { month := "2025-01", incomeSources := [], expenseCategories := [] }
    (by decide)

/-- Claim C7: a login with an unknown username and a login with a known
username but failing password check return the same response — status
401 with the body "Invalid credentials" — so the response does not
reveal whether the username exists. -/
theorem login_uniform_failure (compare : String → String → Bool)
    (users : List User) (uA pA uB pB : String) (user : User)
    (hA : uA ≠ "") (hpA : pA ≠ "") (hB : uB ≠ "") (hpB : pB ≠ "")
    (hunknown : findUserByName users uA = none)
    (hknown : findUserByName users uB = some user)
    (hwrong : compare pB user.password = false) :
    login compare uA pA users = login compare uB pB users ∧
    login compare uA pA users = .err 401 "Invalid credentials" := by
  have h1 : login compare uA pA users = .err 401 "Invalid credentials" := by
    unfold login
    rw [if_neg (by simp [hA, hpA]), hunknown]
  have h2 : login compare uB pB users = .err 401 "Invalid credentials" := by
    unfold login
    rw [if_neg (by simp [hB, hpB]), hknown]
    simp [hwrong]
  exact ⟨h1.trans h2.symm, h1⟩

/-- Witness for C7: unknown user "bob" vs known user "alice" with a
rejected password, against a one-user store. -/
theorem login_uniform_failure_witness :
    login (fun _ _ => false) "bob" "x" [⟨1, "alice", "hash"⟩] =
      login (fun _ _ => false) "alice" "x" [⟨1, "alice", "hash"⟩] ∧
    login (fun _ _ => false) "bob" "x" [⟨1, "alice", "hash"⟩] =
      .err 401 "Invalid credentials" :=
  login_uniform_failure (fun _ _ => false) [⟨1, "alice", "hash"⟩]
    "bob" "x" "alice" "x" ⟨1, "alice", "hash"⟩
    (by decide) (by decide) (by decide) (by decide)
    (by decide) (by decide) rfl

/-- Claim C8, counterexample to the stated status code: a credential
change requesting a username that belongs to another user responds 400
"Username already taken" (the pre-check fires), not an undifferentiated
500, and the store is unchanged. -/
theorem changeCredentials_conflict_is_400 :
    changeCredentials (fun _ _ => true) (fun s => s) 1
        ⟨some "pw", some "bob", none⟩
        [⟨1, "alice", "ha"⟩, ⟨2, "bob", "hb"⟩] =
      (.err 400 "Username already taken", [⟨1, "alice", "ha"⟩, ⟨2, "bob", "hb"⟩]) ∧
    (changeCredentials (fun _ _ => true) (fun s => s) 1
        ⟨some "pw", some "bob", none⟩
        [⟨1, "alice", "ha"⟩, ⟨2, "bob", "hb"⟩]).1.statusOf ≠ some 500 := by
  decide

/-- Claim C8 (amended): when a credential change requests a new username
already belonging to another user, the handler responds 400 "Username
already taken" and the conflicting update is not committed (the store is
returned unchanged).  The undifferentiated 500 of the spec's defect note
arises only in the concurrent race, outside this sequential model. -/
theorem changeCredentials_conflict_rejected
    (compare : String → String → Bool) (hash : String → String)
    (sid : Nat) (body : ChangeBody) (users : List User) (user other : User)
    (hcur : jsTruthyStr body.currentPassword = true)
    (hid : findUserById users sid = some user)
    (hpw : compare ((body.currentPassword).getD "") user.password = true)
    (hnew : jsTruthyStr body.newUsername = true)
    (hex : findUserByName users ((body.newUsername).getD "") = some other)
    (hother : other.id ≠ user.id) :
    changeCredentials compare hash sid body users =
      (.err 400 "Username already taken", users) := by
  unfold changeCredentials
  simp [hcur, hnew, hid, hpw, hex, hother]

/-- Witness for C8's amended statement at a concrete two-user store. -/
theorem changeCredentials_conflict_rejected_witness :
    changeCredentials (fun _ h => h = "hc") (fun s => s) 3
        ⟨some "secret", some "dana", none⟩
        [⟨3, "carol", "hc"⟩, ⟨4, "dana", "hd"⟩] =
      (.err 400 "Username already taken", [⟨3, "carol", "hc"⟩, ⟨4, "dana", "hd"⟩]) :=
  changeCredentials_conflict_rejected (fun _ h => h = "hc") (fun s => s) 3
    ⟨some "secret", some "dana", none⟩
    [⟨3, "carol", "hc"⟩, ⟨4, "dana", "hd"⟩]
    ⟨3, "carol", "hc"⟩ ⟨4, "dana", "hd"⟩
    (by decide) (by decide) (by decide) (by decide) (by decide) (by decide)

end FinanceManager
